import Mathlib

/-!
Shallow embedding of the duty-status tracking core of the eld-fe repository.

Time is modelled the way the source computes with it: absolute instants are
integer milliseconds since the epoch (the value of Date.getTime), and
durations are rational hours (millisecond differences divided by 3600000).
The JavaScript Math.floor over an exact division is Int.fdiv.

Sources embedded:
  - src/src/app/contexts/TripContext.tsx
      mapStatusToActivityType (lines 365-378), mapActivityTypeToStatus
      (lines 280-293), startActivity (362-423, local path), stopActivity
      (425-473, local path)
  - src/src/app/components/ActivityScreen.tsx
      handleStartActivity (99-108), handleStopActivity (126-136),
      updateElapsed (28-45), calculateTodayTotals (138-184)
  - src/src/app/components/RecapScreen.tsx
      dailyTotals (67-83), compliance status (278-284)
  - src/unnamed/part_003 (ELDLogBook)
      totals (366-379), HOS compliance line (757-761)
  - src/unnamed/part_001 and src/unnamed/part_000 (AuthContext)
      updateCycleHours (identical in both files)
  - src/unnamed/part_003 (NewTripScreen)
      handleSubmit cycle-hours guard (71-97)
-/

namespace ELDFE

/-- The four duty-status literals used across the repository
(the status union type in TripContext.tsx line 27). -/
inductive ActivityStatus where
  | offDuty
  | sleeperBerth
  | driving
  | onDutyNotDriving
  deriving DecidableEq, Repr

/-- TripContext.tsx lines 365-378: mapStatusToActivityType, the encoder from
a duty status to its backend wire code. The default arm of the source switch
is unreachable because the union type is closed. -/
def mapStatusToActivityType : ActivityStatus → String
  | .onDutyNotDriving => "ONDUTY"
  | .offDuty => "OFFDUTY"
  | .driving => "DRIVING"
  | .sleeperBerth => "SLEEPER"

/-- TripContext.tsx lines 280-293: mapActivityTypeToStatus, the decoder from
a backend wire code (possibly absent) back to a duty status; any unknown code
falls through to off-duty. The source switch compares the scrutinee against
each literal in order, which the chain of conditionals mirrors. -/
def mapActivityTypeToStatus (t : Option String) : ActivityStatus :=
  if t = some "ONDUTY" then .onDutyNotDriving
  else if t = some "OFFDUTY" then .offDuty
  else if t = some "DRIVING" then .driving
  else if t = some "SLEEPER" then .sleeperBerth
  else .offDuty

/-- TripContext.tsx lines 35-41: ActiveActivity. The ISO startTime string is
carried as the instant it denotes, in integer milliseconds. -/
structure ActiveActivity where
  id : String
  status : ActivityStatus
  startTime : Int
  location : String
  notes : Option String
  deriving DecidableEq, Repr

/-- TripContext.tsx lines 23-33 and 43-45: ELDEntry, also used as
CompletedActivity. startTime and endTime are the formatted clock strings the
source stores; duration is rational hours; odometer and engineHours are the
pass-through telemetry numbers. -/
structure CompletedActivity where
  id : String
  status : ActivityStatus
  startTime : String
  endTime : String
  location : String
  duration : ℚ
  odometer : ℚ
  engineHours : ℚ
  notes : Option String
  deriving DecidableEq, Repr

/-- Two-digit zero padding used by the clock formatter. -/
def pad2 (n : Nat) : String :=
  if n < 10 then "0" ++ toString n else toString n

/-- Model of toLocaleTimeString with hour and minute as 2-digit fields and
hour12 false (TripContext.tsx lines 334-335 and 435-436), taken in UTC: the
instant reduced to its minute of day, printed as HH:MM. -/
def formatHM (ms : Int) : String :=
  let minutes := (ms.fdiv 60000).emod 1440
  pad2 (minutes.fdiv 60).toNat ++ ":" ++ pad2 (minutes.emod 60).toNat

/-- The ledger state owned by TripProvider (TripContext.tsx lines 201-202):
the open-activity slot and the list of completed activities for today. -/
structure TripState where
  activeActivity : Option ActiveActivity
  todayActivities : List CompletedActivity
  deriving DecidableEq, Repr

/-- TripContext.tsx lines 362-423: startActivity, local path. It builds a new
ActiveActivity stamped with the current instant and stores it in the
open-activity slot unconditionally; the completed list is untouched. The
backend path differs only in the id, startTime and location fields it copies
from the server response, and also overwrites the slot unconditionally. -/
def startActivity (st : TripState) (status : ActivityStatus)
    (notes : Option String) (nowMs : Int) : TripState :=
  { st with
    activeActivity := some
      { id := "activity-" ++ toString nowMs
        status := status
        startTime := nowMs
        location := "Current Location"
        notes := notes } }

/-- TripContext.tsx lines 425-473: stopActivity. With no open activity it
returns null and changes nothing. Otherwise it computes the duration as the
millisecond difference to the current instant divided by 3600000, builds the
completed record (endTime formatted from the current instant, odometer
145350 plus a random draw r in [0,100), engineHours 8522.5 plus the
duration), puts the record at the front of todayActivities, and clears the
open-activity slot. No comparison of the current instant against the start
time is made anywhere in the function. -/
def stopActivity (st : TripState) (nowMs : Int) (r : Int) :
    Option CompletedActivity × TripState :=
  match st.activeActivity with
  | none => (none, st)
  | some act =>
    let durationHours : ℚ := ((nowMs - act.startTime : Int) : ℚ) / 3600000
    let completed : CompletedActivity :=
      { id := act.id
        status := act.status
        startTime := formatHM act.startTime
        endTime := formatHM nowMs
        location := act.location
        duration := durationHours
        odometer := 145350 + (r : ℚ)
        engineHours := 8522.5 + durationHours
        notes := act.notes }
    (some completed,
     { activeActivity := none
       todayActivities := completed :: st.todayActivities })

/-- Error surfaced by the ActivityScreen handlers through toast.error. -/
inductive UiError where
  | alreadyTracking
  | notTracking
  deriving DecidableEq, Repr

/-- ActivityScreen.tsx lines 99-118: handleStartActivity guarded by the
open-activity check, composed with the confirm step that invokes
startActivity with the trimmed note (lines 110-118). When an activity is
already active the handler reports the error and returns with every piece of
state untouched. -/
def handleStartActivity (st : TripState) (status : ActivityStatus)
    (noteText : String) (nowMs : Int) : TripState × Option UiError :=
  if st.activeActivity.isSome then
    (st, some .alreadyTracking)
  else
    (startActivity st status
      (if noteText.trim = "" then none else some noteText.trim) nowMs, none)

/-- ActivityScreen.tsx lines 126-136: handleStopActivity. With no active
activity it reports the error and returns; otherwise it calls stopActivity. -/
def handleStopActivity (st : TripState) (nowMs : Int) (r : Int) :
    TripState × Option UiError :=
  if st.activeActivity.isNone then
    (st, some .notTracking)
  else
    ((stopActivity st nowMs r).2, none)

/-- ActivityScreen.tsx lines 34-39: updateElapsed. The elapsed figure is the
millisecond difference from the activity start to now, divided by 1000 and
floored to whole seconds. No lower clamp is applied. -/
def updateElapsed (startMs nowMs : Int) : Int :=
  (nowMs - startMs).fdiv 1000

/-- The four per-status accumulators of calculateTodayTotals
(ActivityScreen.tsx lines 139-144). -/
structure Totals where
  offDuty : ℚ
  sleeperBerth : ℚ
  driving : ℚ
  onDuty : ℚ
  deriving DecidableEq, Repr

/-- One arm of the switch statements adding a duration to the bucket of a
status (ActivityScreen.tsx lines 148-161 and 167-180). -/
def addToBucket (t : Totals) (s : ActivityStatus) (d : ℚ) : Totals :=
  match s with
  | .offDuty => { t with offDuty := t.offDuty + d }
  | .sleeperBerth => { t with sleeperBerth := t.sleeperBerth + d }
  | .driving => { t with driving := t.driving + d }
  | .onDutyNotDriving => { t with onDuty := t.onDuty + d }

/-- Reads the bucket belonging to a status. -/
def Totals.bucket (t : Totals) : ActivityStatus → ℚ
  | .offDuty => t.offDuty
  | .sleeperBerth => t.sleeperBerth
  | .driving => t.driving
  | .onDutyNotDriving => t.onDuty

/-- Sum of the four buckets. -/
def Totals.total (t : Totals) : ℚ :=
  t.offDuty + t.sleeperBerth + t.driving + t.onDuty

/-- ActivityScreen.tsx lines 138-184: calculateTodayTotals. Starting from
zeroed accumulators it adds the duration of every completed activity to the
bucket of its status, then, when an activity is active, adds the elapsed
seconds converted to hours to the bucket of the active status. Its inputs
are the todayActivities list, the activeActivity slot and the elapsedTime
state maintained by updateElapsed. -/
def calculateTodayTotals (todayActivities : List CompletedActivity)
    (activeActivity : Option ActiveActivity) (elapsedTime : Int) : Totals :=
  let totals := todayActivities.foldl
    (fun t a => addToBucket t a.status a.duration) ⟨0, 0, 0, 0⟩
  match activeActivity with
  | some act => addToBucket totals act.status ((elapsedTime : ℚ) / 3600)
  | none => totals

/-- Completed record whose duration derives from explicit millisecond
endpoints, exactly as both record producers compute it: stopActivity at
TripContext.tsx line 430 and the backend fetch mapping at line 329 divide the
millisecond difference by 3600000. -/
def recordOfInterval (s : ActivityStatus) (startMs endMs : Int) :
    CompletedActivity :=
  { id := "", status := s, startTime := formatHM startMs,
    endTime := formatHM endMs, location := "",
    duration := ((endMs - startMs : Int) : ℚ) / 3600000,
    odometer := 0, engineHours := 0, notes := none }

/-- A gapless day: each record starts at the boundary where the previous one
ended; a segment is its status together with its end boundary. -/
def mkConsecutive : Int → List (ActivityStatus × Int) → List CompletedActivity
  | _, [] => []
  | t0, (s, t1) :: rest => recordOfInterval s t0 t1 :: mkConsecutive t1 rest

/-- The boundary where the last record of a gapless day ends. -/
def lastBoundary : Int → List (ActivityStatus × Int) → Int
  | t0, [] => t0
  | _, (_, t1) :: rest => lastBoundary t1 rest

/-- src/unnamed/part_003 lines 366-379 (ELDLogBook) and RecapScreen.tsx
lines 68-83: per-status totals of a log, each bucket the fold of the
durations of the entries filtered to that status. -/
def eldTotals (logs : List CompletedActivity) : Totals :=
  { offDuty := (logs.filter (fun l => l.status = .offDuty)).foldl
      (fun sum l => sum + l.duration) 0
    sleeperBerth := (logs.filter (fun l => l.status = .sleeperBerth)).foldl
      (fun sum l => sum + l.duration) 0
    driving := (logs.filter (fun l => l.status = .driving)).foldl
      (fun sum l => sum + l.duration) 0
    onDuty := (logs.filter (fun l => l.status = .onDutyNotDriving)).foldl
      (fun sum l => sum + l.duration) 0 }

/-- src/unnamed/part_003 lines 757-761 (ELDLogBook) and RecapScreen.tsx
lines 278-284: the compliance verdict is the comparison
totals.driving <= 11. -/
def hosCompliant (logs : List CompletedActivity) : Bool :=
  (eldTotals logs).driving ≤ 11

/-- src/unnamed/part_001 lines 3-10 (also part_000): User, with the cycle
fields as rational hours. -/
structure User where
  id : String
  name : String
  email : String
  licenseNumber : String
  cycleHoursUsed : ℚ
  cycleHoursLimit : ℚ
  deriving DecidableEq, Repr

/-- src/unnamed/part_001 lines 62-69 and src/unnamed/part_000 lines 164-171
(identical): updateCycleHours. When a user is logged in, cycleHoursUsed
becomes min of cycleHoursUsed + hours and cycleHoursLimit; with no user the
function does nothing. There is no sign check on hours. -/
def updateCycleHours (user : Option User) (hours : ℚ) : Option User :=
  match user with
  | some u => some
      { u with cycleHoursUsed := min (u.cycleHoursUsed + hours) u.cycleHoursLimit }
  | none => none

/-- Error surfaced by the NewTripScreen form through toast.error. -/
inductive SubmitError where
  | invalidCycleHours
  deriving DecidableEq, Repr

/-- src/unnamed/part_003 lines 71-97 (NewTripScreen handleSubmit), cycle
part: the parsed hours figure is rejected when it is not positive; otherwise
the trip is added and updateCycleHours is applied with it. NaN cannot arise
over the rationals, so only the sign guard remains. -/
def handleSubmitCycleHours (user : Option User) (hours : ℚ) :
    Except SubmitError (Option User) :=
  if hours ≤ 0 then .error .invalidCycleHours
  else .ok (updateCycleHours user hours)

/-! Concrete sample data used to evaluate the definitions. -/

/-- Sample completed record with a chosen status and duration. -/
def sampleEntry (s : ActivityStatus) (d : ℚ) : CompletedActivity :=
  { id := "e", status := s, startTime := "06:00", endTime := "09:30",
    location := "Los Angeles, CA", duration := d, odometer := 145350,
    engineHours := 8522.5, notes := none }

/-- Sample open activity that started one hour into the epoch day. -/
def sampleActive : ActiveActivity :=
  { id := "a1", status := .driving, startTime := 3600000,
    location := "Current Location", notes := none }

/-- Ledger state with the sample activity open and an empty completed list. -/
def sampleTracking : TripState :=
  { activeActivity := some sampleActive, todayActivities := [] }

/-- Idle ledger state holding one completed record. -/
def sampleIdle : TripState :=
  { activeActivity := none, todayActivities := [sampleEntry .driving 1] }

/-- The mock user of src/unnamed/part_001 lines 23-30. -/
def mockUser : User :=
  { id := "1", name := "John Driver", email := "john.driver@example.com",
    licenseNumber := "CDL-12345678", cycleHoursUsed := 45.5,
    cycleHoursLimit := 70 }

/-! Helper lemmas shared across the claims. -/

/-- Adding to the bucket of a status grows exactly that bucket. -/
theorem addToBucket_bucket (t : Totals) (s : ActivityStatus) (d : ℚ) :
    (addToBucket t s d).bucket s = t.bucket s + d := by
  cases s <;> rfl

/-- Adding to any bucket grows the grand total by the same amount. -/
theorem total_addToBucket (t : Totals) (s : ActivityStatus) (d : ℚ) :
    (addToBucket t s d).total = t.total + d := by
  cases s <;> simp [addToBucket, Totals.total] <;> ring

/-- The grand total of the completed-records fold is the starting total plus
the sum of the record durations. -/
theorem total_foldl (recs : List CompletedActivity) (t : Totals) :
    (recs.foldl (fun t a => addToBucket t a.status a.duration) t).total
      = t.total + (recs.map (fun a => a.duration)).sum := by
  induction recs generalizing t with
  | nil => simp
  | cons a rest ih =>
    rw [List.foldl_cons, ih, total_addToBucket, List.map_cons, List.sum_cons]
    ring

/-- The durations of a gapless day telescope to the time between the first
and the last boundary. -/
theorem mkConsecutive_duration_sum (segs : List (ActivityStatus × Int)) :
    ∀ t0 : Int, ((mkConsecutive t0 segs).map (fun a => a.duration)).sum
      = ((lastBoundary t0 segs - t0 : Int) : ℚ) / 3600000 := by
  induction segs with
  | nil => intro t0; simp [mkConsecutive, lastBoundary]
  | cons seg rest ih =>
    intro t0
    rw [mkConsecutive, List.map_cons, List.sum_cons, ih seg.2]
    show ((seg.2 - t0 : Int) : ℚ) / 3600000 + _ = _
    rw [lastBoundary]
    push_cast
    ring

/-! Claims. -/

/-- C9: encoding each of the four duty statuses to its wire code and decoding
back yields the original status, and decoding any code outside the four known
codes — including an absent one — yields off-duty, the documented lossy
fallback. -/
theorem C9_wire_roundtrip :
    (∀ s : ActivityStatus,
      mapActivityTypeToStatus (some (mapStatusToActivityType s)) = s) ∧
    (∀ t : Option String, t ≠ some "ONDUTY" → t ≠ some "OFFDUTY" →
      t ≠ some "DRIVING" → t ≠ some "SLEEPER" →
      mapActivityTypeToStatus t = .offDuty) := by
  constructor
  · intro s
    cases s <;> rfl
  · intro t h1 h2 h3 h4
    simp [mapActivityTypeToStatus, h1, h2, h3, h4]

/-- C9 witness: the round trip at driving, and the fallback at an unknown
code. -/
theorem C9_wire_roundtrip_witness :
    mapActivityTypeToStatus (some (mapStatusToActivityType .driving))
      = .driving ∧
    mapActivityTypeToStatus (some "BOGUS") = .offDuty :=
  ⟨C9_wire_roundtrip.1 .driving,
   C9_wire_roundtrip.2 (some "BOGUS") (by decide) (by decide) (by decide)
     (by decide)⟩

/-- C10: with no logged-in user, updateCycleHours is a silent no-op for every
hours value: the user state stays none and no cycle hours are recorded. -/
theorem C10_updateCycleHours_no_user :
    ∀ hours : ℚ, updateCycleHours none hours = none := by
  intro hours
  rfl

/-- C7: calculateTodayTotals is a pure function of its inputs: any two calls
on identical inputs return identical per-status totals. -/
theorem C7_calculateTodayTotals_pure :
    ∀ (r₁ r₂ : List CompletedActivity) (a₁ a₂ : Option ActiveActivity)
      (e₁ e₂ : Int), r₁ = r₂ → a₁ = a₂ → e₁ = e₂ →
      calculateTodayTotals r₁ a₁ e₁ = calculateTodayTotals r₂ a₂ e₂ := by
  intro r₁ r₂ a₁ a₂ e₁ e₂ hr ha he
  rw [hr, ha, he]

/-- C7 witness: two identical concrete calls agree. -/
theorem C7_calculateTodayTotals_pure_witness :
    calculateTodayTotals [sampleEntry .driving 1] (some sampleActive) 60
      = calculateTodayTotals [sampleEntry .driving 1] (some sampleActive) 60 :=
  C7_calculateTodayTotals_pure [sampleEntry .driving 1]
    [sampleEntry .driving 1] (some sampleActive) (some sampleActive) 60 60
    rfl rfl rfl

/-- C5: the compliance verdict is inclusive at the limit: a driving total of
exactly 11 hours is reported compliant, and any driving total strictly above
11 is reported as a violation. -/
theorem C5_compliance_boundary :
    ∀ logs : List CompletedActivity,
      ((eldTotals logs).driving = 11 → hosCompliant logs = true) ∧
      (11 < (eldTotals logs).driving → hosCompliant logs = false) := by
  intro logs
  constructor
  · intro h
    unfold hosCompliant
    rw [h]
    decide
  · intro h
    exact decide_eq_false_iff_not.mpr (not_le.mpr h)

/-- C5 witness: a log with exactly 11 driving hours is compliant and a log
with 11.0000001 driving hours is not. -/
theorem C5_compliance_boundary_witness :
    hosCompliant [sampleEntry .driving 11] = true ∧
    hosCompliant [sampleEntry .driving (110000001 / 10000000)] = false :=
  ⟨(C5_compliance_boundary [sampleEntry .driving 11]).1
     (by norm_num [eldTotals, sampleEntry]),
   (C5_compliance_boundary [sampleEntry .driving (110000001 / 10000000)]).2
     (by norm_num [eldTotals, sampleEntry])⟩

/-- C2: starting while an activity is already open fails with the
already-tracking error at the start entry point and leaves the ledger
unchanged: the open activity is not replaced and the completed list is not
touched. -/
theorem C2_start_while_tracking (st : TripState) (a : ActiveActivity)
    (status : ActivityStatus) (noteText : String) (nowMs : Int)
    (h : st.activeActivity = some a) :
    handleStartActivity st status noteText nowMs
      = (st, some .alreadyTracking) := by
  unfold handleStartActivity
  rw [h]
  rfl

/-- C2 witness: starting off-duty while the sample activity is open is
rejected and the state survives verbatim. -/
theorem C2_start_while_tracking_witness :
    handleStartActivity sampleTracking .offDuty "" 7200000
      = (sampleTracking, some .alreadyTracking) :=
  C2_start_while_tracking sampleTracking sampleActive .offDuty "" 7200000 rfl

/-- C3: stopping while idle fails with the not-tracking error at the stop
entry point and does not alter the completed-records list; the underlying
stopActivity returns null and leaves the whole state unchanged. -/
theorem C3_stop_while_idle (st : TripState) (nowMs r : Int)
    (h : st.activeActivity = none) :
    handleStopActivity st nowMs r = (st, some .notTracking) ∧
    stopActivity st nowMs r = (none, st) := by
  constructor
  · unfold handleStopActivity
    rw [h]
    rfl
  · unfold stopActivity
    rw [h]

/-- C3 witness: stopping the idle sample state is rejected and its one
completed record survives verbatim. -/
theorem C3_stop_while_idle_witness :
    handleStopActivity sampleIdle 3600000 0 = (sampleIdle, some .notTracking) ∧
    stopActivity sampleIdle 3600000 0 = (none, sampleIdle) :=
  C3_stop_while_idle sampleIdle 3600000 0 rfl

/-- C1 counterexample: with the open sample activity started at millisecond
3600000, stopping at millisecond 0 — a full hour before the start — does not
fail with any error: a completed record with duration minus one hour is
produced, the record lands in the completed list, and the slot clears. -/
theorem C1_counterexample :
    (stopActivity sampleTracking 0 0).1.map (fun c => c.duration)
      = some (-1) ∧
    (stopActivity sampleTracking 0 0).2.activeActivity = none ∧
    (stopActivity sampleTracking 0 0).2.todayActivities.length = 1 := by
  refine ⟨?_, rfl, rfl⟩
  show some ((((0 : Int) - sampleActive.startTime : Int) : ℚ) / 3600000)
    = some (-1)
  norm_num [sampleActive]

/-- C1 amended: for a ledger in Tracking, stopping at any instant succeeds
without time-range validation: it produces a record whose endTime is the
formatted stop instant and whose duration is the stop instant minus the
start in hours — negative when the stop instant precedes the start — puts
the record at the front of the completed list for today, clears the
open-activity slot, and leaves the ledger Idle. -/
theorem C1_stop_tracking (st : TripState) (act : ActiveActivity)
    (nowMs r : Int) (h : st.activeActivity = some act) :
    ∃ c : CompletedActivity,
      stopActivity st nowMs r
        = (some c, { activeActivity := none,
                     todayActivities := c :: st.todayActivities }) ∧
      c.duration = ((nowMs - act.startTime : Int) : ℚ) / 3600000 ∧
      c.endTime = formatHM nowMs ∧
      c.status = act.status := by
  unfold stopActivity
  rw [h]
  exact ⟨_, rfl, rfl, rfl, rfl⟩

/-- C1 witness: stopping the sample tracking state at millisecond 0. -/
theorem C1_stop_tracking_witness :
    ∃ c : CompletedActivity,
      stopActivity sampleTracking 0 0
        = (some c, { activeActivity := none,
                     todayActivities := c :: sampleTracking.todayActivities }) ∧
      c.duration = ((0 - sampleActive.startTime : Int) : ℚ) / 3600000 ∧
      c.endTime = formatHM 0 ∧
      c.status = sampleActive.status :=
  C1_stop_tracking sampleTracking sampleActive 0 0 rfl

/-- C6 counterexample: the open sample driving activity starts at millisecond
3600000; aggregated against reference instant 0 its bucket receives minus
one hour, not zero — updateElapsed applies no lower clamp. -/
theorem C6_counterexample :
    (calculateTodayTotals [] (some sampleActive)
        (updateElapsed sampleActive.startTime 0)).driving = -1 := by
  have he : updateElapsed sampleActive.startTime 0 = -3600 := by decide
  rw [he]
  norm_num [calculateTodayTotals, addToBucket, sampleActive]

/-- C6 amended: the amount the open activity adds to the bucket of its
status is the updateElapsed figure — the millisecond difference from start
to reference floored to whole seconds — divided by 3600, with no clamp; when
the start lies strictly after the reference instant the contribution is
strictly negative. -/
theorem C6_open_contribution (recs : List CompletedActivity)
    (act : ActiveActivity) (nowMs : Int) :
    (calculateTodayTotals recs (some act)
        (updateElapsed act.startTime nowMs)).bucket act.status
      = (calculateTodayTotals recs none 0).bucket act.status
        + ((nowMs - act.startTime).fdiv 1000 : ℚ) / 3600 ∧
    (nowMs < act.startTime →
      ((nowMs - act.startTime).fdiv 1000 : ℚ) / 3600 < 0) := by
  constructor
  · show (addToBucket _ act.status _).bucket act.status = _
    rw [addToBucket_bucket]
    rfl
  · intro h
    have hneg : (nowMs - act.startTime).fdiv 1000 < 0 :=
      Int.fdiv_neg' (by omega) (by norm_num)
    have hq : ((nowMs - act.startTime).fdiv 1000 : ℚ) < 0 := by
      exact_mod_cast hneg
    linarith

/-- C6 witness: the general contribution identity at the sample activity and
reference instant 0, where the contribution is negative. -/
theorem C6_open_contribution_witness :
    ((calculateTodayTotals [] (some sampleActive)
        (updateElapsed sampleActive.startTime 0)).bucket sampleActive.status
      = (calculateTodayTotals [] none 0).bucket sampleActive.status
        + (((0 : Int) - sampleActive.startTime).fdiv 1000 : ℚ) / 3600) ∧
    (((0 : Int) - sampleActive.startTime).fdiv 1000 : ℚ) / 3600 < 0 :=
  ⟨(C6_open_contribution [] sampleActive 0).1,
   (C6_open_contribution [] sampleActive 0).2 (by decide)⟩

/-- C8 counterexample: committing zero hours — a nonnegative delta — is not
applied but rejected by the trip form, and a direct negative commit through
updateCycleHours is not rejected: it lowers cycleHoursUsed from 45.5 to
44.5. -/
theorem C8_counterexample :
    handleSubmitCycleHours (some mockUser) 0 = .error .invalidCycleHours ∧
    (updateCycleHours (some mockUser) (-1)).map (fun u => u.cycleHoursUsed)
      = some 44.5 := by
  constructor
  · simp [handleSubmitCycleHours]
  · show some (min (mockUser.cycleHoursUsed + (-1)) mockUser.cycleHoursLimit)
      = some 44.5
    norm_num [mockUser, min_eq_left]

/-- C8 amended: through the trip form, a strictly positive hoursDelta sets
cycleHoursUsed to the minimum of cycleHoursUsed + hoursDelta and
cycleHoursLimit — never above the limit — while a zero or negative
hoursDelta is rejected with the validation error before updateCycleHours
runs, leaving the user state unchanged; updateCycleHours itself clamps
unconditionally and has no sign check. -/
theorem C8_cycle_commit (u : User) (delta : ℚ) :
    (0 < delta →
      handleSubmitCycleHours (some u) delta
        = .ok (some { u with cycleHoursUsed := min (u.cycleHoursUsed + delta) u.cycleHoursLimit }) ∧
      min (u.cycleHoursUsed + delta) u.cycleHoursLimit ≤ u.cycleHoursLimit) ∧
    (delta ≤ 0 →
      handleSubmitCycleHours (some u) delta = .error .invalidCycleHours) := by
  constructor
  · intro h
    refine ⟨?_, min_le_right _ _⟩
    unfold handleSubmitCycleHours updateCycleHours
    rw [if_neg (not_le.mpr h)]
  · intro h
    unfold handleSubmitCycleHours
    rw [if_pos h]

/-- C8 witness: committing 2 hours to the mock user clamps at the limit and
is accepted; committing minus 2 hours through the form is rejected. -/
theorem C8_cycle_commit_witness :
    (handleSubmitCycleHours (some mockUser) 2
        = .ok (some { mockUser with cycleHoursUsed := min (mockUser.cycleHoursUsed + 2) mockUser.cycleHoursLimit }) ∧
      min (mockUser.cycleHoursUsed + 2) mockUser.cycleHoursLimit
        ≤ mockUser.cycleHoursLimit) ∧
    handleSubmitCycleHours (some mockUser) (-2) = .error .invalidCycleHours :=
  ⟨(C8_cycle_commit mockUser 2).1 (by norm_num),
   (C8_cycle_commit mockUser (-2)).2 (by norm_num)⟩

/-- C4 counterexample: a day with one driving record covering the first hour
from millisecond 0 and the open sample activity starting at its end, sampled
half a second after the start: the buckets sum to exactly 1 hour while the
reference instant minus the earliest start is 7201/7200 hours — the half
second is lost to the whole-second floor in updateElapsed, so the claimed
exact identity fails. -/
theorem C4_counterexample :
    (calculateTodayTotals (mkConsecutive 0 [(.driving, 3600000)])
        (some sampleActive)
        (updateElapsed sampleActive.startTime 3600500)).total = 1 ∧
    ((3600500 - 0 : Int) : ℚ) / 3600000 ≠ 1 := by
  constructor
  · have he : updateElapsed sampleActive.startTime 3600500 = 0 := by decide
    rw [he]
    norm_num [calculateTodayTotals, mkConsecutive, recordOfInterval,
      addToBucket, Totals.total, sampleActive]
  · norm_num

/-- C4 amended: over a gapless day of consecutive records whose durations
are their interval lengths, with the open activity starting where the last
record ends, the four buckets sum to the reference instant minus the
earliest boundary whenever the open elapsed time is a whole number of
seconds; updateElapsed floors the open contribution to whole seconds, so up
to one second of the open interval can be dropped, and no time is ever
counted twice. -/
theorem C4_total_conservation (t0 : Int) (segs : List (ActivityStatus × Int))
    (act : ActiveActivity) (nowMs : Int)
    (hstart : act.startTime = lastBoundary t0 segs)
    (hsec : (1000 : Int) ∣ nowMs - act.startTime) :
    (calculateTodayTotals (mkConsecutive t0 segs) (some act)
        (updateElapsed act.startTime nowMs)).total
      = ((nowMs - t0 : Int) : ℚ) / 3600000 := by
  obtain ⟨k, hk⟩ := hsec
  have he : updateElapsed act.startTime nowMs = k := by
    unfold updateElapsed
    rw [hk]
    exact Int.mul_fdiv_cancel_left k (by norm_num)
  have hq : (nowMs : ℚ) - (act.startTime : ℚ) = 1000 * (k : ℚ) := by
    exact_mod_cast hk
  show (addToBucket _ act.status _).total = _
  rw [total_addToBucket, total_foldl, mkConsecutive_duration_sum, he,
    ← hstart]
  have htot : Totals.total ⟨0, 0, 0, 0⟩ = 0 := by
    norm_num [Totals.total]
  rw [htot]
  push_cast
  linear_combination -hq / 3600000

/-- C4 witness: one driving hour from millisecond 0 followed by the open
sample activity, sampled exactly one hour after its start: the buckets sum
to two hours. -/
theorem C4_total_conservation_witness :
    (calculateTodayTotals (mkConsecutive 0 [(.driving, 3600000)])
        (some sampleActive)
        (updateElapsed sampleActive.startTime 7200000)).total
      = ((7200000 - 0 : Int) : ℚ) / 3600000 :=
  C4_total_conservation 0 [(.driving, 3600000)] sampleActive 7200000
    (by decide) ⟨3600, by decide⟩

end ELDFE
